import Mathlib

/-!
Shallow embedding of the EconomicBubbleSim server simulation core.

Sources embedded:
* src/server/economicEngine.ts — MarketState, PolicyState, PlayerAction,
  EconomicEngine (processPlayerAction, the per-role action processors,
  updateMarketDynamics, load2008CrisisData, getHistoricalComparison).
* src/unnamed/part_003 — SimulationWebSocketServer (the single shared
  EconomicEngine instance and handlePlayerAction).

JavaScript numbers are modelled by ℚ for the main development (every
arithmetic expression of the engine is exact at small scales, so exact
rational arithmetic mirrors the finite-double behaviour of the paths the
claims quantify over).  A second model (JsVal, further below) embeds the
IEEE special values NaN / ±Infinity and the JS value `undefined`, and is
used to evaluate the engine on actions whose numeric parameters are
absent, which the TypeScript code does not guard against.
-/

namespace BubbleSim

/-- MarketState, economicEngine.ts lines 3–16 (all fields JS numbers). -/
structure MarketState where
  medianPrice : ℚ
  priceGrowth : ℚ
  inventory : ℚ
  bubbleRisk : ℚ
  supplyLevel : ℚ
  demandLevel : ℚ
  priceToIncomeRatio : ℚ
  mortgageRate : ℚ
  unemploymentRate : ℚ
  housingStarts : ℚ
  foreclosureRate : ℚ
  timeStep : ℚ
  deriving DecidableEq, Repr

/-- PolicyState, economicEngine.ts lines 18–24. -/
structure PolicyState where
  fedRate : ℚ
  maxLTV : ℚ
  capitalRequirements : ℚ
  stressTesting : Bool
  regulatoryStrength : ℚ
  deriving DecidableEq, Repr

/-- Action parameters, read from the untyped `parameters` record at the
points of use in economicEngine.ts (price, income, downPayment at lines
113–115; quantity, leverage at lines 154–155; rate at line 189; maxLTV at
line 211; enabled at line 230; reason at line 143).  In this model every
numeric parameter is a rational (present and finite). -/
structure Params where
  price : ℚ := 0
  income : ℚ := 0
  downPayment : ℚ := 0
  quantity : ℚ := 0
  leverage : ℚ := 0
  rate : ℚ := 0
  maxLTV : ℚ := 0
  enabled : Bool := false
  reason : String := ""
  deriving DecidableEq, Repr

/-- PlayerAction, economicEngine.ts lines 26–31.  `role` is a plain string:
the websocket server casts the connection's role string unchecked
(part_003 line 179, `role: client.role as any`), so unknown roles reach
the engine's switch. -/
structure PlayerAction where
  userId : String
  role : String
  actionType : String
  parameters : Params
  deriving DecidableEq, Repr

/-- The typed payloads of the events pushed by the action processors
(eventData and impact fields flattened into one constructor per
eventType), economicEngine.ts lines 121–134, 141–146, 161–169, 176–181,
198–207, 218–226, 235–240. -/
inductive EventData where
  | homebuyerPurchase (price income downPayment priceToIncomeRatio : ℚ)
      (demandIncrease : ℚ) (marketSignal : String)
  | homebuyerWait (reason : String) (demandDecrease : ℚ)
  | investorPurchase (quantity leverage demandIncrease bubbleRiskIncrease : ℚ)
  | mortgageSecuritization (parameters : Params) (bubbleRiskIncrease : ℚ)
  | fedRateChange (oldRate newRate change mortgageRateChange demandChange : ℚ)
      (coolingEffect : String)
  | ltvRegulation (maxLTV bubbleRiskReduction demandReduction : ℚ)
  | stressTestingMandate (enabled : Bool) (bubbleRiskReduction : ℚ)
  deriving DecidableEq, Repr

/-- InsertMarketEvent as produced by the engine: eventType string, typed
payload, the acting user, and the sessionId stamped 0 by
processPlayerAction (economicEngine.ts lines 102–105). -/
structure MarketEvent where
  eventType : String
  data : EventData
  triggeredBy : String
  sessionId : ℤ
  deriving DecidableEq, Repr

/-- The engine's mutable fields (economicEngine.ts lines 34–35); the
historical data is an immutable constant, kept outside. -/
structure Engine where
  market : MarketState
  policy : PolicyState
  deriving DecidableEq, Repr

/-- getInitialMarketState, economicEngine.ts lines 44–59. -/
def getInitialMarketState : MarketState where
  medianPrice := 220000
  priceGrowth := 8.5
  inventory := 4.2
  bubbleRisk := 35
  supplyLevel := 100
  demandLevel := 120
  priceToIncomeRatio := 3.8
  mortgageRate := 5.87
  unemploymentRate := 5.1
  housingStarts := 2068000
  foreclosureRate := 0.58
  timeStep := 0

/-- getInitialPolicyState, economicEngine.ts lines 61–69. -/
def getInitialPolicyState : PolicyState where
  fedRate := 2.25
  maxLTV := 95
  capitalRequirements := 8
  stressTesting := false
  regulatoryStrength := 50

/-- The engine as built by the constructor (economicEngine.ts lines 38–42). -/
def initialEngine : Engine where
  market := getInitialMarketState
  policy := getInitialPolicyState

/-- One entry of the historical reference data. -/
structure HistEntry where
  time : ℚ
  events : List String
  deriving DecidableEq, Repr

/-- load2008CrisisData, economicEngine.ts lines 71–81. -/
def historicalData : List HistEntry :=
  [ { time := 0, events := ["Low interest rates", "Loose lending standards"] },
    { time := 4, events := ["Fed starts raising rates", "Subprime lending peaks"] },
    { time := 8, events := ["Housing prices peak", "Early signs of stress"] },
    { time := 10, events := ["Subprime crisis begins", "Bear Stearns hedge funds collapse"] },
    { time := 12, events := ["Lehman Brothers fails", "Global financial crisis"] },
    { time := 14, events := ["TARP bailouts", "Fed cuts rates to zero"] },
    { time := 16, events := ["Housing market bottoms", "Recovery begins"] } ]

/-- processHomebuyerAction, economicEngine.ts lines 110–149.  Returns the
mutated MarketState and the pushed events. -/
def processHomebuyerAction (a : PlayerAction) (m : MarketState) :
    MarketState × List MarketEvent :=
  match a.actionType with
  | "purchase" =>
      let purchasePrice := a.parameters.price
      let income := a.parameters.income
      let downPayment := a.parameters.downPayment
      ( { m with demandLevel := m.demandLevel + 1 },
        [ { eventType := "homebuyer_purchase"
            data := .homebuyerPurchase purchasePrice income downPayment
              (purchasePrice / income) 1
              (if purchasePrice > m.medianPrice then "bullish" else "bearish")
            triggeredBy := a.userId
            sessionId := 0 } ] )
  | "wait" =>
      ( { m with demandLevel := m.demandLevel - 0.5 },
        [ { eventType := "homebuyer_wait"
            data := .homebuyerWait a.parameters.reason 0.5
            triggeredBy := a.userId
            sessionId := 0 } ] )
  | _ => (m, [])

/-- processInvestorAction, economicEngine.ts lines 151–184. -/
def processInvestorAction (a : PlayerAction) (m : MarketState) :
    MarketState × List MarketEvent :=
  match a.actionType with
  | "buy_properties" =>
      let quantity := a.parameters.quantity
      let leverage := a.parameters.leverage
      ( { m with demandLevel := m.demandLevel + quantity * 2,
                 bubbleRisk := m.bubbleRisk + quantity * leverage * 0.1 },
        [ { eventType := "investor_purchase"
            data := .investorPurchase quantity leverage (quantity * 2)
              (quantity * leverage * 0.1)
            triggeredBy := a.userId
            sessionId := 0 } ] )
  | "securitize" =>
      ( { m with bubbleRisk := m.bubbleRisk + 5 },
        [ { eventType := "mortgage_securitization"
            data := .mortgageSecuritization a.parameters 5
            triggeredBy := a.userId
            sessionId := 0 } ] )
  | _ => (m, [])

/-- processRegulatorAction, economicEngine.ts lines 186–244.  Returns the
mutated MarketState, the mutated PolicyState and the pushed events. -/
def processRegulatorAction (a : PlayerAction) (m : MarketState) (p : PolicyState) :
    MarketState × PolicyState × List MarketEvent :=
  match a.actionType with
  | "set_fed_rate" =>
      let newRate := a.parameters.rate
      let oldRate := p.fedRate
      let rateChange := newRate - oldRate
      ( { m with mortgageRate := m.mortgageRate + rateChange * 1.2,
                 demandLevel := m.demandLevel - rateChange * 10 },
        { p with fedRate := newRate },
        [ { eventType := "fed_rate_change"
            data := .fedRateChange oldRate newRate rateChange (rateChange * 1.2)
              (-rateChange * 10)
              (if rateChange > 0 then "moderate" else "stimulative")
            triggeredBy := a.userId
            sessionId := 0 } ] )
  | "set_ltv_limit" =>
      let ltvImpact := (95 - a.parameters.maxLTV) * 0.5
      ( { m with bubbleRisk := m.bubbleRisk - ltvImpact,
                 demandLevel := m.demandLevel - ltvImpact * 0.3 },
        { p with maxLTV := a.parameters.maxLTV },
        [ { eventType := "ltv_regulation"
            data := .ltvRegulation a.parameters.maxLTV ltvImpact (ltvImpact * 0.3)
            triggeredBy := a.userId
            sessionId := 0 } ] )
  | "require_stress_testing" =>
      if a.parameters.enabled then
        ( { m with bubbleRisk := m.bubbleRisk - 10 },
          { p with stressTesting := a.parameters.enabled },
          [ { eventType := "stress_testing_mandate"
              data := .stressTestingMandate true 10
              triggeredBy := a.userId
              sessionId := 0 } ] )
      else
        (m, { p with stressTesting := a.parameters.enabled }, [])
  | _ => (m, p, [])

/-- The role dispatch of processPlayerAction (economicEngine.ts lines
86–96): the action-specific mutation, before updateMarketDynamics. -/
def applyAction (a : PlayerAction) (e : Engine) : Engine × List MarketEvent :=
  match a.role with
  | "homebuyer" =>
      let r := processHomebuyerAction a e.market
      ({ e with market := r.1 }, r.2)
  | "investor" =>
      let r := processInvestorAction a e.market
      ({ e with market := r.1 }, r.2)
  | "regulator" =>
      let r := processRegulatorAction a e.market e.policy
      ({ market := r.1, policy := r.2.1 }, r.2.2)
  | _ => (e, [])

/-- updateMarketDynamics, economicEngine.ts lines 246–301, in the source's
statement order (inventory reads the pre-recomputation supplyLevel and
demandLevel; foreclosureRate reads the freshly clamped bubbleRisk and
priceToIncomeRatio; supplyLevel reads the freshly clamped housingStarts). -/
def updateMarketDynamics (m : MarketState) (p : PolicyState) : MarketState :=
  let timeStep := m.timeStep + 0.25
  let supplyDemandRatio := m.supplyLevel / m.demandLevel
  let priceChangeFromSD := (1 / supplyDemandRatio - 1) * 20
  let rateDemandEffect := (8 - m.mortgageRate) * 2
  let priceGrowth := max (-20) (min 30
    (m.priceGrowth * 0.9 + priceChangeFromSD * 0.3 + rateDemandEffect * 0.1))
  let medianPrice := m.medianPrice * (1 + priceGrowth / 400)
  let priceToIncomeRatio := medianPrice / 52000
  let bubbleRisk := max 0 (min 100
    (priceToIncomeRatio * 15 + priceGrowth * 2 +
      (if m.mortgageRate < 4 then 10 else 0) +
      (if p.maxLTV > 90 then 15 else 0) +
      (if p.stressTesting then 0 else 10)))
  let inventory := max 0.5 (min 12
    (m.inventory + (m.supplyLevel - m.demandLevel) * 0.01))
  let housingStarts := max 500000 (min 3000000
    (m.housingStarts + priceGrowth * 10000))
  let foreclosureRate := max 0.1 (min 5
    (0.5 + bubbleRisk * 0.03 + max 0 (priceToIncomeRatio - 4) * 0.5))
  let supplyLevel := 100 + (housingStarts - 1800000) / 10000
  let demandLevel := max 50
    (120 - m.mortgageRate * 5 - m.unemploymentRate * 3)
  { m with
    timeStep := timeStep
    priceGrowth := priceGrowth
    medianPrice := medianPrice
    priceToIncomeRatio := priceToIncomeRatio
    bubbleRisk := bubbleRisk
    inventory := inventory
    housingStarts := housingStarts
    foreclosureRate := foreclosureRate
    supplyLevel := supplyLevel
    demandLevel := demandLevel }

/-- The result record of processPlayerAction (economicEngine.ts lines
101–107) together with the engine's post-call state. -/
structure ProcessResult where
  marketEvents : List MarketEvent
  newState : MarketState
  engine : Engine
  deriving DecidableEq, Repr

/-- processPlayerAction, economicEngine.ts lines 83–108: role dispatch,
then the unconditional updateMarketDynamics, then the events mapped with
sessionId stamped 0 and a copy of the new MarketState returned. -/
def processPlayerAction (a : PlayerAction) (e : Engine) : ProcessResult :=
  let r := applyAction a e
  let m2 := updateMarketDynamics r.1.market r.1.policy
  { marketEvents := r.2.map (fun ev => { ev with sessionId := 0 })
    newState := m2
    engine := { r.1 with market := m2 } }

/-- Folding a list of actions through the engine in order, accumulating
every emitted event (each websocket player_action message triggers one
processPlayerAction call, part_003 lines 175–180). -/
def runActions : List PlayerAction → Engine → Engine × List MarketEvent
  | [], e => (e, [])
  | a :: rest, e =>
      let r := processPlayerAction a e
      let rec' := runActions rest r.engine
      (rec'.1, r.marketEvents ++ rec'.2)

/-- The result record of getHistoricalComparison (economicEngine.ts lines
311–321). -/
structure HistoricalComparison where
  currentRisk : ℚ
  historicalEvent : String
  deriving DecidableEq, Repr

/-- getHistoricalComparison, economicEngine.ts lines 311–321: the FIRST
entry (Array.prototype.find) whose time is strictly within 2 of the
current timeStep, its events joined with a comma, else the default
string. -/
def getHistoricalComparison (e : Engine) : HistoricalComparison :=
  let currentTime := e.market.timeStep
  let historicalEvent :=
    historicalData.find? (fun h => decide (|h.time - currentTime| < 2))
  { currentRisk := e.market.bubbleRisk
    historicalEvent :=
      match historicalEvent with
      | some h => String.intercalate ", " h.events
      | none => "Normal market conditions" }

/-! The websocket server of src/unnamed/part_003: a single EconomicEngine
instance (line 22, `private economicEngine: EconomicEngine`, created once
in the constructor at line 27) serves every connected client, whatever
session the client has joined. -/

/-- WSClient, part_003 lines 6–11 (the ws handle itself is not modelled). -/
structure WSClient where
  userId : Option String
  sessionId : Option ℤ
  role : Option String
  deriving DecidableEq, Repr

/-- The server's mutable state: the one shared engine and the client
registry (part_003 lines 20–22). -/
structure ServerState where
  engine : Engine
  clients : List (String × WSClient)
  deriving DecidableEq, Repr

/-- this.clients.get(clientId). -/
def lookupClient (s : ServerState) (cid : String) : Option WSClient :=
  (s.clients.find? (fun kv => kv.1 = cid)).map (fun kv => kv.2)

/-- JS truthiness of the guard `!client.userId` (undefined or the empty
string are falsy). -/
def truthyUserId : Option String → Bool
  | some u => u ≠ ""
  | none => false

/-- JS truthiness of the guard `!client.sessionId` (undefined or 0 are
falsy). -/
def truthySessionId : Option ℤ → Bool
  | some n => n ≠ 0
  | none => false

/-- handlePlayerAction, part_003 lines 168–223, restricted to its state
effect: look the client up, bail out (error reply) unless userId and
sessionId are truthy, otherwise run the shared engine on the payload with
the connection's userId and role spliced in.  Persistence and the
broadcast carry the result out unchanged. -/
def handlePlayerAction (s : ServerState) (cid : String) (payload : PlayerAction) :
    ServerState :=
  match lookupClient s cid with
  | none => s
  | some c =>
      if truthyUserId c.userId && truthySessionId c.sessionId then
        let a := { payload with userId := c.userId.getD "", role := c.role.getD "" }
        let r := processPlayerAction a s.engine
        { s with engine := r.engine }
      else s

/-- The MarketState a client of session `sid` observes: every broadcast
(market_update at part_003 lines 206–215, session_joined at lines
149–156, the periodic update) reads the single shared engine, so the
observed state does not depend on the session id. -/
def observedMarketState (s : ServerState) (_sid : ℤ) : MarketState :=
  s.engine.market

/-! Second model: JavaScript number semantics with the special values.
The TypeScript engine reads action parameters out of an untyped record
with no presence check (economicEngine.ts lines 113–115, 154–155, 189,
211, 230), so a missing parameter is `undefined`, arithmetic on it gives
NaN, and the one division of updateMarketDynamics (line 251) is
unguarded.  `JsVal` is a JS number-or-undefined: NaN, +Infinity,
-Infinity or a finite value (finite doubles modelled exactly by ℚ, which
collapses -0 into 0 — indistinguishable on every path below). -/

inductive JsVal where
  | undef
  | nan
  | inf
  | ninf
  | fin (q : ℚ)
  deriving DecidableEq, Repr

namespace JsVal

/-- ToNumber: `undefined` coerces to NaN in every arithmetic context. -/
def toNum : JsVal → JsVal
  | undef => nan
  | v => v

/-- IEEE addition. -/
def jadd (x y : JsVal) : JsVal :=
  match x.toNum, y.toNum with
  | nan, _ => nan
  | _, nan => nan
  | inf, ninf => nan
  | ninf, inf => nan
  | inf, _ => inf
  | _, inf => inf
  | ninf, _ => ninf
  | _, ninf => ninf
  | fin a, fin b => fin (a + b)
  | _, _ => nan

/-- IEEE negation. -/
def jneg : JsVal → JsVal
  | undef => nan
  | nan => nan
  | inf => ninf
  | ninf => inf
  | fin a => fin (-a)

/-- IEEE subtraction. -/
def jsub (x y : JsVal) : JsVal := jadd x (jneg y)

/-- IEEE multiplication. -/
def jmul (x y : JsVal) : JsVal :=
  match x.toNum, y.toNum with
  | nan, _ => nan
  | _, nan => nan
  | inf, inf => inf
  | inf, ninf => ninf
  | ninf, inf => ninf
  | ninf, ninf => inf
  | inf, fin b => if b = 0 then nan else if 0 < b then inf else ninf
  | fin a, inf => if a = 0 then nan else if 0 < a then inf else ninf
  | ninf, fin b => if b = 0 then nan else if 0 < b then ninf else inf
  | fin a, ninf => if a = 0 then nan else if 0 < a then ninf else inf
  | fin a, fin b => fin (a * b)
  | _, _ => nan

/-- IEEE division: a nonzero finite value over 0 gives a signed infinity
(ℚ has no -0, so the 0 divisor counts as +0), 0/0 gives NaN. -/
def jdiv (x y : JsVal) : JsVal :=
  match x.toNum, y.toNum with
  | nan, _ => nan
  | _, nan => nan
  | inf, inf => nan
  | inf, ninf => nan
  | ninf, inf => nan
  | ninf, ninf => nan
  | inf, fin b => if 0 ≤ b then inf else ninf
  | ninf, fin b => if 0 ≤ b then ninf else inf
  | fin _, inf => fin 0
  | fin _, ninf => fin 0
  | fin a, fin b =>
      if b = 0 then (if a = 0 then nan else if 0 < a then inf else ninf)
      else fin (a / b)
  | _, _ => nan

/-- Math.max: NaN if either argument is NaN. -/
def jmax (x y : JsVal) : JsVal :=
  match x.toNum, y.toNum with
  | nan, _ => nan
  | _, nan => nan
  | inf, _ => inf
  | _, inf => inf
  | ninf, b => b
  | a, ninf => a
  | fin a, fin b => fin (max a b)
  | _, _ => nan

/-- Math.min: NaN if either argument is NaN. -/
def jmin (x y : JsVal) : JsVal :=
  match x.toNum, y.toNum with
  | nan, _ => nan
  | _, nan => nan
  | ninf, _ => ninf
  | _, ninf => ninf
  | inf, b => b
  | a, inf => a
  | fin a, fin b => fin (min a b)
  | _, _ => nan

/-- The JS `<` relational operator: false whenever NaN (or undefined,
which coerces to NaN) is involved. -/
def jlt (x y : JsVal) : Bool :=
  match x.toNum, y.toNum with
  | nan, _ => false
  | _, nan => false
  | inf, _ => false
  | _, inf => true
  | ninf, ninf => false
  | ninf, _ => true
  | _, ninf => false
  | fin a, fin b => decide (a < b)
  | _, _ => false

/-- The JS `>` operator. -/
def jgt (x y : JsVal) : Bool := jlt y x

/-- The JS `<=` operator: false whenever NaN is involved. -/
def jle (x y : JsVal) : Bool :=
  match x.toNum, y.toNum with
  | nan, _ => false
  | _, nan => false
  | ninf, _ => true
  | _, ninf => false
  | inf, inf => true
  | inf, _ => false
  | _, inf => true
  | fin a, fin b => decide (a ≤ b)
  | _, _ => false

/-- JS truthiness of a number-or-undefined: undefined, NaN and 0 are
falsy. -/
def truthy : JsVal → Bool
  | undef => false
  | nan => false
  | fin a => a ≠ 0
  | _ => true

/-- The value is a finite number lying in the closed range [lo, hi] (what
JS `lo <= x && x <= hi` checks observe of a clamped field). -/
def finBetween (lo hi : ℚ) : JsVal → Prop
  | fin q => lo ≤ q ∧ q ≤ hi
  | _ => False

/-- The value is a finite number that is at least lo. -/
def finAtLeast (lo : ℚ) : JsVal → Prop
  | fin q => lo ≤ q
  | _ => False

end JsVal

/-- MarketState in the JS-value model (same fields as `MarketState`). -/
structure JsMarketState where
  medianPrice : JsVal
  priceGrowth : JsVal
  inventory : JsVal
  bubbleRisk : JsVal
  supplyLevel : JsVal
  demandLevel : JsVal
  priceToIncomeRatio : JsVal
  mortgageRate : JsVal
  unemploymentRate : JsVal
  housingStarts : JsVal
  foreclosureRate : JsVal
  timeStep : JsVal
  deriving DecidableEq, Repr

/-- PolicyState in the JS-value model.  `stressTesting` is stored as its
truthiness: the only read of the field is the truthiness test at
economicEngine.ts line 275, so coercing at the assignment (line 230) is
observationally faithful. -/
structure JsPolicyState where
  fedRate : JsVal
  maxLTV : JsVal
  capitalRequirements : JsVal
  stressTesting : Bool
  regulatoryStrength : JsVal
  deriving DecidableEq, Repr

/-- The engine in the JS-value model. -/
structure JsEngine where
  market : JsMarketState
  policy : JsPolicyState
  deriving DecidableEq, Repr

/-- Reading a key of the untyped `parameters` record: a missing key is
`undefined`. -/
def jsGetParam (ps : List (String × JsVal)) (k : String) : JsVal :=
  (((ps.find? (fun kv => kv.1 = k)).map (fun kv => kv.2)).getD .undef)

/-- PlayerAction in the JS-value model: the parameters record is an
arbitrary key→value map. -/
structure JsPlayerAction where
  userId : String
  role : String
  actionType : String
  parameters : List (String × JsVal)
  deriving DecidableEq, Repr

/-- getInitialMarketState (economicEngine.ts lines 44–59) in the JS-value
model. -/
def jsInitialMarketState : JsMarketState where
  medianPrice := .fin 220000
  priceGrowth := .fin 8.5
  inventory := .fin 4.2
  bubbleRisk := .fin 35
  supplyLevel := .fin 100
  demandLevel := .fin 120
  priceToIncomeRatio := .fin 3.8
  mortgageRate := .fin 5.87
  unemploymentRate := .fin 5.1
  housingStarts := .fin 2068000
  foreclosureRate := .fin 0.58
  timeStep := .fin 0

/-- getInitialPolicyState (economicEngine.ts lines 61–69) in the JS-value
model. -/
def jsInitialPolicyState : JsPolicyState where
  fedRate := .fin 2.25
  maxLTV := .fin 95
  capitalRequirements := .fin 8
  stressTesting := false
  regulatoryStrength := .fin 50

/-- The freshly constructed engine in the JS-value model. -/
def jsInitialEngine : JsEngine where
  market := jsInitialMarketState
  policy := jsInitialPolicyState

open JsVal in
/-- processHomebuyerAction (economicEngine.ts lines 110–149) in the
JS-value model, restricted to its state effect (the pushed events carry
no state). -/
def jsProcessHomebuyerAction (a : JsPlayerAction) (m : JsMarketState) :
    JsMarketState :=
  match a.actionType with
  | "purchase" => { m with demandLevel := jadd m.demandLevel (fin 1) }
  | "wait" => { m with demandLevel := jsub m.demandLevel (fin 0.5) }
  | _ => m

open JsVal in
/-- processInvestorAction (economicEngine.ts lines 151–184) in the
JS-value model: the parameters `quantity` and `leverage` are read with no
presence check. -/
def jsProcessInvestorAction (a : JsPlayerAction) (m : JsMarketState) :
    JsMarketState :=
  match a.actionType with
  | "buy_properties" =>
      let quantity := jsGetParam a.parameters "quantity"
      let leverage := jsGetParam a.parameters "leverage"
      { m with
        demandLevel := jadd m.demandLevel (jmul quantity (fin 2))
        bubbleRisk := jadd m.bubbleRisk (jmul (jmul quantity leverage) (fin 0.1)) }
  | "securitize" => { m with bubbleRisk := jadd m.bubbleRisk (fin 5) }
  | _ => m

open JsVal in
/-- processRegulatorAction (economicEngine.ts lines 186–244) in the
JS-value model. -/
def jsProcessRegulatorAction (a : JsPlayerAction) (m : JsMarketState)
    (p : JsPolicyState) : JsMarketState × JsPolicyState :=
  match a.actionType with
  | "set_fed_rate" =>
      let newRate := jsGetParam a.parameters "rate"
      let oldRate := p.fedRate
      let rateChange := jsub newRate oldRate
      ( { m with
          mortgageRate := jadd m.mortgageRate (jmul rateChange (fin 1.2))
          demandLevel := jsub m.demandLevel (jmul rateChange (fin 10)) },
        { p with fedRate := newRate } )
  | "set_ltv_limit" =>
      let maxLTV := jsGetParam a.parameters "maxLTV"
      let ltvImpact := jmul (jsub (fin 95) maxLTV) (fin 0.5)
      ( { m with
          bubbleRisk := jsub m.bubbleRisk ltvImpact
          demandLevel := jsub m.demandLevel (jmul ltvImpact (fin 0.3)) },
        { p with maxLTV := maxLTV } )
  | "require_stress_testing" =>
      let enabled := jsGetParam a.parameters "enabled"
      let p' := { p with stressTesting := enabled.truthy }
      if enabled.truthy then
        ({ m with bubbleRisk := jsub m.bubbleRisk (fin 10) }, p')
      else (m, p')
  | _ => (m, p)

open JsVal in
/-- updateMarketDynamics (economicEngine.ts lines 246–301) in the
JS-value model, operation for operation: the division at line 251 is
unguarded, and every Math.max/Math.min propagates NaN. -/
def jsUpdateMarketDynamics (m : JsMarketState) (p : JsPolicyState) :
    JsMarketState :=
  let timeStep := jadd m.timeStep (fin 0.25)
  let supplyDemandRatio := jdiv m.supplyLevel m.demandLevel
  let priceChangeFromSD := jmul (jsub (jdiv (fin 1) supplyDemandRatio) (fin 1)) (fin 20)
  let rateDemandEffect := jmul (jsub (fin 8) m.mortgageRate) (fin 2)
  let priceGrowth := jmax (fin (-20)) (jmin (fin 30)
    (jadd (jadd (jmul m.priceGrowth (fin 0.9)) (jmul priceChangeFromSD (fin 0.3)))
      (jmul rateDemandEffect (fin 0.1))))
  let medianPrice := jmul m.medianPrice (jadd (fin 1) (jdiv priceGrowth (fin 400)))
  let priceToIncomeRatio := jdiv medianPrice (fin 52000)
  let bubbleRisk := jmax (fin 0) (jmin (fin 100)
    (jadd (jadd (jadd (jadd (jmul priceToIncomeRatio (fin 15))
      (jmul priceGrowth (fin 2)))
      (if jlt m.mortgageRate (fin 4) then fin 10 else fin 0))
      (if jgt p.maxLTV (fin 90) then fin 15 else fin 0))
      (if p.stressTesting then fin 0 else fin 10)))
  let inventory := jmax (fin 0.5) (jmin (fin 12)
    (jadd m.inventory (jmul (jsub m.supplyLevel m.demandLevel) (fin 0.01))))
  let housingStarts := jmax (fin 500000) (jmin (fin 3000000)
    (jadd m.housingStarts (jmul priceGrowth (fin 10000))))
  let foreclosureRate := jmax (fin 0.1) (jmin (fin 5)
    (jadd (jadd (fin 0.5) (jmul bubbleRisk (fin 0.03)))
      (jmul (jmax (fin 0) (jsub priceToIncomeRatio (fin 4))) (fin 0.5))))
  let supplyLevel := jadd (fin 100) (jdiv (jsub housingStarts (fin 1800000)) (fin 10000))
  let demandLevel := jmax (fin 50)
    (jsub (jsub (fin 120) (jmul m.mortgageRate (fin 5)))
      (jmul m.unemploymentRate (fin 3)))
  { m with
    timeStep := timeStep
    priceGrowth := priceGrowth
    medianPrice := medianPrice
    priceToIncomeRatio := priceToIncomeRatio
    bubbleRisk := bubbleRisk
    inventory := inventory
    housingStarts := housingStarts
    foreclosureRate := foreclosureRate
    supplyLevel := supplyLevel
    demandLevel := demandLevel }

/-- The role dispatch of processPlayerAction (economicEngine.ts lines
86–96) in the JS-value model: the action-specific mutation before the
dynamics update. -/
def jsApplyAction (a : JsPlayerAction) (e : JsEngine) : JsEngine :=
  match a.role with
  | "homebuyer" => { e with market := jsProcessHomebuyerAction a e.market }
  | "investor" => { e with market := jsProcessInvestorAction a e.market }
  | "regulator" =>
      let r := jsProcessRegulatorAction a e.market e.policy
      { market := r.1, policy := r.2 }
  | _ => e

/-- processPlayerAction (economicEngine.ts lines 83–108) in the JS-value
model: role dispatch, then the unconditional updateMarketDynamics. -/
def jsProcessPlayerAction (a : JsPlayerAction) (e : JsEngine) : JsEngine :=
  let e1 := jsApplyAction a e
  { e1 with market := jsUpdateMarketDynamics e1.market e1.policy }

/-- All twelve MarketState fields are finite JS numbers (Number.isFinite
holds of each). -/
def JsMarketState.allFin (m : JsMarketState) : Prop :=
  (∃ q, m.medianPrice = JsVal.fin q) ∧ (∃ q, m.priceGrowth = JsVal.fin q) ∧
  (∃ q, m.inventory = JsVal.fin q) ∧ (∃ q, m.bubbleRisk = JsVal.fin q) ∧
  (∃ q, m.supplyLevel = JsVal.fin q) ∧ (∃ q, m.demandLevel = JsVal.fin q) ∧
  (∃ q, m.priceToIncomeRatio = JsVal.fin q) ∧ (∃ q, m.mortgageRate = JsVal.fin q) ∧
  (∃ q, m.unemploymentRate = JsVal.fin q) ∧ (∃ q, m.housingStarts = JsVal.fin q) ∧
  (∃ q, m.foreclosureRate = JsVal.fin q) ∧ (∃ q, m.timeStep = JsVal.fin q)

/-- The role/actionType pairs the engine's switches recognize
(economicEngine.ts lines 86–96, 111–148, 152–183, 187–243); every other
pair falls through every case label. -/
def recognizedAction (role actionType : String) : Prop :=
  (role = "homebuyer" ∧ (actionType = "purchase" ∨ actionType = "wait")) ∨
  (role = "investor" ∧ (actionType = "buy_properties" ∨ actionType = "securitize")) ∨
  (role = "regulator" ∧ (actionType = "set_fed_rate" ∨ actionType = "set_ltv_limit" ∨
    actionType = "require_stress_testing"))

instance (role actionType : String) : Decidable (recognizedAction role actionType) := by
  unfold recognizedAction; infer_instance

/-! Shared lemmas about the engine's step. -/

/-- The action dispatch never touches timeStep: only updateMarketDynamics
advances it. -/
lemma applyAction_market_timeStep (a : PlayerAction) (e : Engine) :
    (applyAction a e).1.market.timeStep = e.market.timeStep := by
  unfold applyAction processHomebuyerAction processInvestorAction processRegulatorAction
  repeat' split
  all_goals rfl

/-- The dynamics update advances timeStep by exactly the 0.25 quantum. -/
lemma updateMarketDynamics_timeStep (m : MarketState) (p : PolicyState) :
    (updateMarketDynamics m p).timeStep = m.timeStep + 0.25 := rfl

/-- Each processed action advances timeStep by exactly 0.25. -/
lemma processPlayerAction_timeStep (a : PlayerAction) (e : Engine) :
    (processPlayerAction a e).newState.timeStep = e.market.timeStep + 0.25 := by
  show (updateMarketDynamics (applyAction a e).1.market (applyAction a e).1.policy).timeStep
      = e.market.timeStep + 0.25
  rw [updateMarketDynamics_timeStep, applyAction_market_timeStep]

/-- The returned newState copy and the engine's post-call market agree. -/
lemma processPlayerAction_engine_market (a : PlayerAction) (e : Engine) :
    (processPlayerAction a e).engine.market = (processPlayerAction a e).newState := rfl

/-- timeStep accumulates exactly 0.25 per action over a whole run. -/
lemma runActions_timeStep (acts : List PlayerAction) (e : Engine) :
    (runActions acts e).1.market.timeStep =
      e.market.timeStep + 0.25 * acts.length := by
  induction acts generalizing e with
  | nil => simp [runActions]
  | cons a rest ih =>
      have hstep : (processPlayerAction a e).engine.market.timeStep =
          e.market.timeStep + 0.25 := by
        rw [processPlayerAction_engine_market, processPlayerAction_timeStep]
      simp only [runActions, ih, hstep, List.length_cons]
      push_cast
      ring

/-! Lemmas about the JS-value arithmetic, used to settle the clamping
bounds in the model that keeps the NaN/Infinity error paths. -/

namespace JsVal

lemma jadd_fin (a b : ℚ) : jadd (fin a) (fin b) = fin (a + b) := rfl

lemma jsub_fin (a b : ℚ) : jsub (fin a) (fin b) = fin (a - b) := by
  show jadd (fin a) (fin (-b)) = fin (a - b)
  rw [jadd_fin, ← sub_eq_add_neg]

lemma jmul_fin (a b : ℚ) : jmul (fin a) (fin b) = fin (a * b) := rfl

lemma jdiv_fin (a b : ℚ) (hb : b ≠ 0) : jdiv (fin a) (fin b) = fin (a / b) := by
  simp [jdiv, toNum, hb]

lemma jdiv_fin_zero_pos (a : ℚ) (ha : 0 < a) : jdiv (fin a) (fin 0) = inf := by
  simp [jdiv, toNum, ha, ha.ne']

lemma jdiv_fin_zero_neg (a : ℚ) (ha : a < 0) : jdiv (fin a) (fin 0) = ninf := by
  simp [jdiv, toNum, ha.ne, ha.not_lt]

lemma jdiv_fin_inf (a : ℚ) : jdiv (fin a) inf = fin 0 := rfl

lemma jdiv_fin_ninf (a : ℚ) : jdiv (fin a) ninf = fin 0 := rfl

lemma jdiv_fin_400 (a : ℚ) : jdiv (fin a) (fin 400) = fin (a / 400) :=
  jdiv_fin a 400 (by norm_num)

lemma jdiv_fin_52000 (a : ℚ) : jdiv (fin a) (fin 52000) = fin (a / 52000) :=
  jdiv_fin a 52000 (by norm_num)

lemma jdiv_fin_10000 (a : ℚ) : jdiv (fin a) (fin 10000) = fin (a / 10000) :=
  jdiv_fin a 10000 (by norm_num)

lemma jmax_fin (a b : ℚ) : jmax (fin a) (fin b) = fin (max a b) := rfl

lemma jmin_fin (a b : ℚ) : jmin (fin a) (fin b) = fin (min a b) := rfl

lemma jmin_fin_inf (a : ℚ) : jmin (fin a) inf = fin a := rfl

lemma jadd_fin_inf (a : ℚ) : jadd (fin a) inf = inf := rfl

lemma jadd_inf_fin (a : ℚ) : jadd inf (fin a) = inf := rfl

lemma jsub_inf_fin (a : ℚ) : jsub inf (fin a) = inf := rfl

lemma jmul_inf_fin (b : ℚ) (hb : 0 < b) : jmul inf (fin b) = inf := by
  simp [jmul, toNum, hb, hb.ne']

lemma jmul_inf_20 : jmul inf (fin 20) = inf := jmul_inf_fin 20 (by norm_num)

lemma jmul_inf_03 : jmul inf (fin 0.3) = inf := jmul_inf_fin 0.3 (by norm_num)

lemma ite_fin (c : Prop) [Decidable c] (a b : ℚ) :
    (if c then fin a else fin b) = fin (if c then a else b) := by
  split <;> rfl

lemma finBetween_clamp {lo hi : ℚ} (h : lo ≤ hi) (x : ℚ) :
    finBetween lo hi (fin (max lo (min hi x))) :=
  ⟨le_max_left _ _, max_le h (min_le_left _ _)⟩

lemma finAtLeast_clamp (lo x : ℚ) : finAtLeast lo (fin (max lo x)) :=
  le_max_left _ _

end JsVal

/-- With every field a finite number and the supply/demand pair not both
exactly zero (the 0/0 path of the unguarded division at economicEngine.ts
line 251, which gives NaN), the dynamics update returns finite clamped
fields inside their documented bounds — on the x/0 = ±Infinity paths the
infinity is absorbed by the min/max clamps before any field is stored. -/
lemma jsUpdateMarketDynamics_bounds (m : JsMarketState) (p : JsPolicyState)
    (hfin : m.allFin)
    (hsd : ¬ (m.supplyLevel = JsVal.fin 0 ∧ m.demandLevel = JsVal.fin 0)) :
    JsVal.finBetween 0 100 (jsUpdateMarketDynamics m p).bubbleRisk ∧
    JsVal.finBetween 0.5 12 (jsUpdateMarketDynamics m p).inventory ∧
    JsVal.finBetween 500000 3000000 (jsUpdateMarketDynamics m p).housingStarts ∧
    JsVal.finBetween 0.1 5 (jsUpdateMarketDynamics m p).foreclosureRate ∧
    JsVal.finAtLeast 50 (jsUpdateMarketDynamics m p).demandLevel := by
  obtain ⟨⟨q1, h1⟩, ⟨q2, h2⟩, ⟨q3, h3⟩, ⟨q4, h4⟩, ⟨q5, h5⟩, ⟨q6, h6⟩, ⟨q7, h7⟩,
    ⟨q8, h8⟩, ⟨q9, h9⟩, ⟨q10, h10⟩, ⟨q11, h11⟩, ⟨q12, h12⟩⟩ := hfin
  by_cases hdl : q6 = 0
  · have hsl : q5 ≠ 0 := fun h => hsd ⟨by rw [h5, h], by rw [h6, hdl]⟩
    rcases lt_or_gt_of_ne hsl with hneg | hpos
    · simp only [jsUpdateMarketDynamics, h1, h2, h3, h4, h5, h6, h7, h8, h9, h10,
        h11, h12, hdl, JsVal.jdiv_fin_zero_neg q5 hneg, JsVal.jdiv_fin_ninf,
        JsVal.jadd_fin, JsVal.jsub_fin, JsVal.jmul_fin, JsVal.jmax_fin,
        JsVal.jmin_fin, JsVal.ite_fin, JsVal.jdiv_fin_400, JsVal.jdiv_fin_52000,
        JsVal.jdiv_fin_10000]
      exact ⟨JsVal.finBetween_clamp (by norm_num) _, JsVal.finBetween_clamp (by norm_num) _,
        JsVal.finBetween_clamp (by norm_num) _, JsVal.finBetween_clamp (by norm_num) _,
        JsVal.finAtLeast_clamp _ _⟩
    · simp only [jsUpdateMarketDynamics, h1, h2, h3, h4, h5, h6, h7, h8, h9, h10,
        h11, h12, hdl, JsVal.jdiv_fin_zero_pos q5 hpos, JsVal.jdiv_fin_inf,
        JsVal.jadd_fin, JsVal.jsub_fin, JsVal.jmul_fin, JsVal.jmax_fin,
        JsVal.jmin_fin, JsVal.ite_fin, JsVal.jdiv_fin_400, JsVal.jdiv_fin_52000,
        JsVal.jdiv_fin_10000]
      exact ⟨JsVal.finBetween_clamp (by norm_num) _, JsVal.finBetween_clamp (by norm_num) _,
        JsVal.finBetween_clamp (by norm_num) _, JsVal.finBetween_clamp (by norm_num) _,
        JsVal.finAtLeast_clamp _ _⟩
  · have hr : JsVal.jdiv (JsVal.fin q5) (JsVal.fin q6) = JsVal.fin (q5 / q6) :=
      JsVal.jdiv_fin q5 q6 hdl
    by_cases hq5 : q5 = 0
    · have hr0 : q5 / q6 = 0 := by rw [hq5, zero_div]
      simp only [jsUpdateMarketDynamics, h1, h2, h3, h4, h5, h6, h7, h8, h9, h10,
        h11, h12, hr, hr0, JsVal.jdiv_fin_zero_pos 1 one_pos, JsVal.jsub_inf_fin,
        JsVal.jmul_inf_20, JsVal.jmul_inf_03, JsVal.jadd_fin_inf, JsVal.jadd_inf_fin,
        JsVal.jmin_fin_inf, JsVal.jadd_fin, JsVal.jsub_fin, JsVal.jmul_fin,
        JsVal.jmax_fin, JsVal.jmin_fin, JsVal.ite_fin, JsVal.jdiv_fin_400,
        JsVal.jdiv_fin_52000, JsVal.jdiv_fin_10000]
      exact ⟨JsVal.finBetween_clamp (by norm_num) _, JsVal.finBetween_clamp (by norm_num) _,
        JsVal.finBetween_clamp (by norm_num) _, JsVal.finBetween_clamp (by norm_num) _,
        JsVal.finAtLeast_clamp _ _⟩
    · have hrne : q5 / q6 ≠ 0 := div_ne_zero hq5 hdl
      have hinv : JsVal.jdiv (JsVal.fin 1) (JsVal.fin (q5 / q6)) =
          JsVal.fin (1 / (q5 / q6)) := JsVal.jdiv_fin 1 (q5 / q6) hrne
      simp only [jsUpdateMarketDynamics, h1, h2, h3, h4, h5, h6, h7, h8, h9, h10,
        h11, h12, hr, hinv, JsVal.jadd_fin, JsVal.jsub_fin, JsVal.jmul_fin,
        JsVal.jmax_fin, JsVal.jmin_fin, JsVal.ite_fin, JsVal.jdiv_fin_400,
        JsVal.jdiv_fin_52000, JsVal.jdiv_fin_10000]
      exact ⟨JsVal.finBetween_clamp (by norm_num) _, JsVal.finBetween_clamp (by norm_num) _,
        JsVal.finBetween_clamp (by norm_num) _, JsVal.finBetween_clamp (by norm_num) _,
        JsVal.finAtLeast_clamp _ _⟩

/-- The action-specific mutations use only +, −, × on the fields and the
read parameters, so finite fields with present finite numeric parameters
(and a finite fedRate, read by set_fed_rate) stay finite. -/
lemma jsApplyAction_allFin (a : JsPlayerAction) (e : JsEngine)
    (hfin : e.market.allFin)
    (hfed : ∃ q, e.policy.fedRate = JsVal.fin q)
    (hpar : (∃ q, jsGetParam a.parameters "quantity" = JsVal.fin q) ∧
            (∃ q, jsGetParam a.parameters "leverage" = JsVal.fin q) ∧
            (∃ q, jsGetParam a.parameters "rate" = JsVal.fin q) ∧
            (∃ q, jsGetParam a.parameters "maxLTV" = JsVal.fin q)) :
    (jsApplyAction a e).market.allFin := by
  obtain ⟨⟨q1, h1⟩, ⟨q2, h2⟩, ⟨q3, h3⟩, ⟨q4, h4⟩, ⟨q5, h5⟩, ⟨q6, h6⟩, ⟨q7, h7⟩,
    ⟨q8, h8⟩, ⟨q9, h9⟩, ⟨q10, h10⟩, ⟨q11, h11⟩, ⟨q12, h12⟩⟩ := hfin
  obtain ⟨qf, hf⟩ := hfed
  obtain ⟨⟨qq, hq⟩, ⟨ql, hl⟩, ⟨qr, hra⟩, ⟨qv, hv⟩⟩ := hpar
  unfold jsApplyAction jsProcessHomebuyerAction jsProcessInvestorAction
    jsProcessRegulatorAction
  repeat' split
  · exact ⟨⟨_, h1⟩, ⟨_, h2⟩, ⟨_, h3⟩, ⟨_, h4⟩, ⟨_, h5⟩,
      ⟨q6 + 1, by rw [h6, JsVal.jadd_fin]⟩,
      ⟨_, h7⟩, ⟨_, h8⟩, ⟨_, h9⟩, ⟨_, h10⟩, ⟨_, h11⟩, ⟨_, h12⟩⟩
  · exact ⟨⟨_, h1⟩, ⟨_, h2⟩, ⟨_, h3⟩, ⟨_, h4⟩, ⟨_, h5⟩,
      ⟨q6 - 0.5, by rw [h6, JsVal.jsub_fin]⟩,
      ⟨_, h7⟩, ⟨_, h8⟩, ⟨_, h9⟩, ⟨_, h10⟩, ⟨_, h11⟩, ⟨_, h12⟩⟩
  · exact ⟨⟨_, h1⟩, ⟨_, h2⟩, ⟨_, h3⟩, ⟨_, h4⟩, ⟨_, h5⟩, ⟨_, h6⟩,
      ⟨_, h7⟩, ⟨_, h8⟩, ⟨_, h9⟩, ⟨_, h10⟩, ⟨_, h11⟩, ⟨_, h12⟩⟩
  · exact ⟨⟨_, h1⟩, ⟨_, h2⟩, ⟨_, h3⟩,
      ⟨q4 + qq * ql * 0.1,
        by simp only [h4, hq, hl, JsVal.jmul_fin, JsVal.jadd_fin]⟩,
      ⟨_, h5⟩,
      ⟨q6 + qq * 2, by simp only [h6, hq, JsVal.jmul_fin, JsVal.jadd_fin]⟩,
      ⟨_, h7⟩, ⟨_, h8⟩, ⟨_, h9⟩, ⟨_, h10⟩, ⟨_, h11⟩, ⟨_, h12⟩⟩
  · exact ⟨⟨_, h1⟩, ⟨_, h2⟩, ⟨_, h3⟩,
      ⟨q4 + 5, by rw [h4, JsVal.jadd_fin]⟩, ⟨_, h5⟩, ⟨_, h6⟩,
      ⟨_, h7⟩, ⟨_, h8⟩, ⟨_, h9⟩, ⟨_, h10⟩, ⟨_, h11⟩, ⟨_, h12⟩⟩
  · exact ⟨⟨_, h1⟩, ⟨_, h2⟩, ⟨_, h3⟩, ⟨_, h4⟩, ⟨_, h5⟩, ⟨_, h6⟩,
      ⟨_, h7⟩, ⟨_, h8⟩, ⟨_, h9⟩, ⟨_, h10⟩, ⟨_, h11⟩, ⟨_, h12⟩⟩
  · exact ⟨⟨_, h1⟩, ⟨_, h2⟩, ⟨_, h3⟩, ⟨_, h4⟩, ⟨_, h5⟩,
      ⟨q6 - (qr - qf) * 10,
        by simp only [h6, hra, hf, JsVal.jsub_fin, JsVal.jmul_fin]⟩,
      ⟨_, h7⟩,
      ⟨q8 + (qr - qf) * 1.2,
        by simp only [h8, hra, hf, JsVal.jsub_fin, JsVal.jmul_fin, JsVal.jadd_fin]⟩,
      ⟨_, h9⟩, ⟨_, h10⟩, ⟨_, h11⟩, ⟨_, h12⟩⟩
  · exact ⟨⟨_, h1⟩, ⟨_, h2⟩, ⟨_, h3⟩,
      ⟨q4 - (95 - qv) * 0.5,
        by simp only [h4, hv, JsVal.jsub_fin, JsVal.jmul_fin]⟩,
      ⟨_, h5⟩,
      ⟨q6 - (95 - qv) * 0.5 * 0.3,
        by simp only [h6, hv, JsVal.jsub_fin, JsVal.jmul_fin]⟩,
      ⟨_, h7⟩, ⟨_, h8⟩, ⟨_, h9⟩, ⟨_, h10⟩, ⟨_, h11⟩, ⟨_, h12⟩⟩
  · dsimp only
    split
    · exact ⟨⟨_, h1⟩, ⟨_, h2⟩, ⟨_, h3⟩,
        ⟨q4 - 10, by simp only [h4, JsVal.jsub_fin]⟩, ⟨_, h5⟩, ⟨_, h6⟩,
        ⟨_, h7⟩, ⟨_, h8⟩, ⟨_, h9⟩, ⟨_, h10⟩, ⟨_, h11⟩, ⟨_, h12⟩⟩
    · exact ⟨⟨_, h1⟩, ⟨_, h2⟩, ⟨_, h3⟩, ⟨_, h4⟩, ⟨_, h5⟩, ⟨_, h6⟩,
        ⟨_, h7⟩, ⟨_, h8⟩, ⟨_, h9⟩, ⟨_, h10⟩, ⟨_, h11⟩, ⟨_, h12⟩⟩
  · exact ⟨⟨_, h1⟩, ⟨_, h2⟩, ⟨_, h3⟩, ⟨_, h4⟩, ⟨_, h5⟩, ⟨_, h6⟩,
      ⟨_, h7⟩, ⟨_, h8⟩, ⟨_, h9⟩, ⟨_, h10⟩, ⟨_, h11⟩, ⟨_, h12⟩⟩
  · exact ⟨⟨_, h1⟩, ⟨_, h2⟩, ⟨_, h3⟩, ⟨_, h4⟩, ⟨_, h5⟩, ⟨_, h6⟩,
      ⟨_, h7⟩, ⟨_, h8⟩, ⟨_, h9⟩, ⟨_, h10⟩, ⟨_, h11⟩, ⟨_, h12⟩⟩

/-- C1 (amended): in the JS-number model that keeps the NaN/Infinity
error paths, for every input state whose fields are finite, every action
whose engine-read numeric parameters (quantity, leverage, rate, maxLTV)
are present finite numbers and whose PolicyState fedRate is finite,
provided the action-specific mutation does not leave supplyLevel and
demandLevel both exactly zero (the unguarded 0/0 division path, which
produces NaN), the state processPlayerAction returns has finite
bubbleRisk ∈ [0, 100], inventory ∈ [0.5, 12],
housingStarts ∈ [500000, 3000000], foreclosureRate ∈ [0.1, 5] and
demandLevel ≥ 50. -/
theorem jsProcessPlayerAction_clamped (a : JsPlayerAction) (e : JsEngine)
    (hfin : e.market.allFin)
    (hfed : ∃ q, e.policy.fedRate = JsVal.fin q)
    (hpar : (∃ q, jsGetParam a.parameters "quantity" = JsVal.fin q) ∧
            (∃ q, jsGetParam a.parameters "leverage" = JsVal.fin q) ∧
            (∃ q, jsGetParam a.parameters "rate" = JsVal.fin q) ∧
            (∃ q, jsGetParam a.parameters "maxLTV" = JsVal.fin q))
    (hsd : ¬ ((jsApplyAction a e).market.supplyLevel = JsVal.fin 0 ∧
              (jsApplyAction a e).market.demandLevel = JsVal.fin 0)) :
    JsVal.finBetween 0 100 (jsProcessPlayerAction a e).market.bubbleRisk ∧
    JsVal.finBetween 0.5 12 (jsProcessPlayerAction a e).market.inventory ∧
    JsVal.finBetween 500000 3000000 (jsProcessPlayerAction a e).market.housingStarts ∧
    JsVal.finBetween 0.1 5 (jsProcessPlayerAction a e).market.foreclosureRate ∧
    JsVal.finAtLeast 50 (jsProcessPlayerAction a e).market.demandLevel :=
  jsUpdateMarketDynamics_bounds (jsApplyAction a e).market (jsApplyAction a e).policy
    (jsApplyAction_allFin a e hfin hfed hpar) hsd

/-- An investor purchase with all engine-read parameters present and
finite. -/
def clampedWitnessAct : JsPlayerAction where
  userId := "u1"
  role := "investor"
  actionType := "buy_properties"
  parameters :=
    [("quantity", .fin 5), ("leverage", .fin 80), ("rate", .fin 3), ("maxLTV", .fin 90)]

/-- C1 witness: the buy_properties action on the freshly constructed
engine satisfies every hypothesis and lands the five fields in bounds. -/
theorem jsProcessPlayerAction_clamped_witness :
    jsInitialEngine.market.allFin ∧
    (∃ q, jsInitialEngine.policy.fedRate = JsVal.fin q) ∧
    ((∃ q, jsGetParam clampedWitnessAct.parameters "quantity" = JsVal.fin q) ∧
      (∃ q, jsGetParam clampedWitnessAct.parameters "leverage" = JsVal.fin q) ∧
      (∃ q, jsGetParam clampedWitnessAct.parameters "rate" = JsVal.fin q) ∧
      (∃ q, jsGetParam clampedWitnessAct.parameters "maxLTV" = JsVal.fin q)) ∧
    (¬ ((jsApplyAction clampedWitnessAct jsInitialEngine).market.supplyLevel = JsVal.fin 0 ∧
        (jsApplyAction clampedWitnessAct jsInitialEngine).market.demandLevel = JsVal.fin 0)) ∧
    (JsVal.finBetween 0 100
        (jsProcessPlayerAction clampedWitnessAct jsInitialEngine).market.bubbleRisk ∧
      JsVal.finBetween 0.5 12
        (jsProcessPlayerAction clampedWitnessAct jsInitialEngine).market.inventory ∧
      JsVal.finBetween 500000 3000000
        (jsProcessPlayerAction clampedWitnessAct jsInitialEngine).market.housingStarts ∧
      JsVal.finBetween 0.1 5
        (jsProcessPlayerAction clampedWitnessAct jsInitialEngine).market.foreclosureRate ∧
      JsVal.finAtLeast 50
        (jsProcessPlayerAction clampedWitnessAct jsInitialEngine).market.demandLevel) := by
  have hfin : jsInitialEngine.market.allFin :=
    ⟨⟨_, rfl⟩, ⟨_, rfl⟩, ⟨_, rfl⟩, ⟨_, rfl⟩, ⟨_, rfl⟩, ⟨_, rfl⟩, ⟨_, rfl⟩, ⟨_, rfl⟩,
      ⟨_, rfl⟩, ⟨_, rfl⟩, ⟨_, rfl⟩, ⟨_, rfl⟩⟩
  have hfed : ∃ q, jsInitialEngine.policy.fedRate = JsVal.fin q := ⟨_, rfl⟩
  have hpar : (∃ q, jsGetParam clampedWitnessAct.parameters "quantity" = JsVal.fin q) ∧
      (∃ q, jsGetParam clampedWitnessAct.parameters "leverage" = JsVal.fin q) ∧
      (∃ q, jsGetParam clampedWitnessAct.parameters "rate" = JsVal.fin q) ∧
      (∃ q, jsGetParam clampedWitnessAct.parameters "maxLTV" = JsVal.fin q) :=
    ⟨⟨_, rfl⟩, ⟨_, rfl⟩, ⟨_, rfl⟩, ⟨_, rfl⟩⟩
  have hsd : ¬ ((jsApplyAction clampedWitnessAct jsInitialEngine).market.supplyLevel =
        JsVal.fin 0 ∧
      (jsApplyAction clampedWitnessAct jsInitialEngine).market.demandLevel =
        JsVal.fin 0) := by
    intro hcon
    have hsup := hcon.1
    rw [show (jsApplyAction clampedWitnessAct jsInitialEngine).market.supplyLevel =
        JsVal.fin 100 from rfl] at hsup
    exact absurd (JsVal.fin.inj hsup) (by norm_num)
  exact ⟨hfin, hfed, hpar, hsd,
    jsProcessPlayerAction_clamped clampedWitnessAct jsInitialEngine hfin hfed hpar hsd⟩

/-- C1 counterexample: the claim fails as stated over all processPlayerAction
call sequences, because nothing checks parameter presence.  One
`set_fed_rate` action with no `rate` parameter, from the freshly
constructed engine, leaves bubbleRisk = NaN in the returned state, and in
JS `0 <= NaN` is false, so the returned state is out of range as a client
observes it. -/
theorem processPlayerAction_clamped_cx :
    (jsProcessPlayerAction
      { userId := "u", role := "regulator", actionType := "set_fed_rate",
        parameters := [] }
      jsInitialEngine).market.bubbleRisk = JsVal.nan ∧
    JsVal.jle (JsVal.fin 0) JsVal.nan = false := by
  constructor
  · rfl
  · rfl

/-- C2: replay equivalence — processing a fixed action list from equal
initial engine states yields the same final MarketState, the same final
PolicyState and the same event list (the step functions are pure:
no randomness, no clock, no hidden inputs). -/
theorem runActions_deterministic (e1 e2 : Engine) (acts : List PlayerAction)
    (h : e1 = e2) :
    (runActions acts e1).1.market = (runActions acts e2).1.market ∧
    (runActions acts e1).1.policy = (runActions acts e2).1.policy ∧
    (runActions acts e1).2 = (runActions acts e2).2 := by
  subst h; exact ⟨rfl, rfl, rfl⟩

/-- A concrete two-action sequence (sample scenario 1's purchase followed
by a securitization). -/
def replayActs : List PlayerAction :=
  [ { userId := "u1", role := "homebuyer", actionType := "purchase",
      parameters := { price := 300000, income := 75000, downPayment := 10 } },
    { userId := "u2", role := "investor", actionType := "securitize",
      parameters := {} } ]

/-- C2 witness: two runs of the same two-action sequence from the initial
engine agree. -/
theorem runActions_deterministic_witness :
    initialEngine = initialEngine ∧
    ((runActions replayActs initialEngine).1.market =
        (runActions replayActs initialEngine).1.market ∧
      (runActions replayActs initialEngine).1.policy =
        (runActions replayActs initialEngine).1.policy ∧
      (runActions replayActs initialEngine).2 =
        (runActions replayActs initialEngine).2) :=
  ⟨rfl, runActions_deterministic initialEngine initialEngine replayActs rfl⟩

/-- C5: starting from timeStep = 0, after processing any N actions
(recognized or not) the timeStep is exactly 0.25 × N; and every single
processed action advances timeStep by exactly the 0.25 quantum (so it is
non-decreasing along every run). -/
theorem timeStep_quantum :
    (∀ (acts : List PlayerAction) (e : Engine), e.market.timeStep = 0 →
      (runActions acts e).1.market.timeStep = 0.25 * acts.length) ∧
    (∀ (a : PlayerAction) (e : Engine),
      (processPlayerAction a e).newState.timeStep = e.market.timeStep + 0.25) := by
  constructor
  · intro acts e h0
    rw [runActions_timeStep, h0, zero_add]
  · exact processPlayerAction_timeStep

/-- C5 witness: two actions (one of them unrecognized) from the initial
engine land at timeStep 0.5 = 0.25 × 2, and a single step from the
initial engine lands at 0 + 0.25. -/
theorem timeStep_quantum_witness :
    initialEngine.market.timeStep = 0 ∧
    (runActions
      [ { userId := "u1", role := "investor", actionType := "securitize",
          parameters := {} },
        { userId := "u2", role := "banker", actionType := "bail_out",
          parameters := {} } ] initialEngine).1.market.timeStep =
      0.25 * (2 : ℕ) ∧
    (processPlayerAction
      { userId := "u1", role := "investor", actionType := "securitize",
        parameters := {} } initialEngine).newState.timeStep =
      initialEngine.market.timeStep + 0.25 :=
  ⟨rfl,
    timeStep_quantum.1 _ initialEngine rfl,
    timeStep_quantum.2 _ initialEngine⟩

/-- C10: on the state processPlayerAction returns, demandLevel equals
max(50, 120 − mortgageRate·5 − unemploymentRate·3) and bubbleRisk equals
the clamped weighted formula of priceToIncomeRatio, priceGrowth,
mortgageRate, maxLTV and stressTesting (all read from the returned
state/policy): the action-specific demandLevel and bubbleRisk increments
are overwritten by the dynamics recomputation. -/
theorem dynamics_overwrites_increments (a : PlayerAction) (e : Engine) :
    (processPlayerAction a e).newState.demandLevel =
      max 50 (120 - (processPlayerAction a e).newState.mortgageRate * 5 -
        (processPlayerAction a e).newState.unemploymentRate * 3) ∧
    (processPlayerAction a e).newState.bubbleRisk =
      max 0 (min 100
        ((processPlayerAction a e).newState.priceToIncomeRatio * 15 +
          (processPlayerAction a e).newState.priceGrowth * 2 +
          (if (processPlayerAction a e).newState.mortgageRate < 4 then 10 else 0) +
          (if (processPlayerAction a e).engine.policy.maxLTV > 90 then 15 else 0) +
          (if (processPlayerAction a e).engine.policy.stressTesting then 0 else 10))) :=
  ⟨rfl, rfl⟩

/-- C4: the code has neither the parameter presence/type checks nor the
division guard the claim describes, and a transition can produce NaN in
the shared state.  An `investor/buy_properties` action whose `quantity`
and `leverage` parameters are absent makes the returned state's
inventory, bubbleRisk, medianPrice, priceGrowth, priceToIncomeRatio,
housingStarts, foreclosureRate and supplyLevel all NaN. -/
theorem buyProperties_missingParams_nan :
    (jsProcessPlayerAction
      { userId := "u", role := "investor", actionType := "buy_properties",
        parameters := [] }
      jsInitialEngine).market.inventory = JsVal.nan ∧
    (jsProcessPlayerAction
      { userId := "u", role := "investor", actionType := "buy_properties",
        parameters := [] }
      jsInitialEngine).market.bubbleRisk = JsVal.nan ∧
    (jsProcessPlayerAction
      { userId := "u", role := "investor", actionType := "buy_properties",
        parameters := [] }
      jsInitialEngine).market.medianPrice = JsVal.nan ∧
    (jsProcessPlayerAction
      { userId := "u", role := "investor", actionType := "buy_properties",
        parameters := [] }
      jsInitialEngine).market.foreclosureRate = JsVal.nan := by
  refine ⟨?_, ?_, ?_, ?_⟩ <;> with_unfolding_all decide

/-- C6: a regulator set_fed_rate action with rate 5.0 against fedRate 2.25:
the emitted event carries change = 2.75, mortgageRateChange = 3.3,
demandChange = −27.5; before the dynamics update the mortgageRate has
moved by +2.75·1.2 and the demandLevel by −2.75·10, and the PolicyState's
fedRate becomes 5.0. -/
theorem setFedRate_scenario (e : Engine) (a : PlayerAction)
    (hrole : a.role = "regulator") (htype : a.actionType = "set_fed_rate")
    (hrate : a.parameters.rate = 5) (hfed : e.policy.fedRate = 2.25) :
    (processPlayerAction a e).marketEvents =
      [ { eventType := "fed_rate_change"
          data := .fedRateChange 2.25 5 2.75 3.3 (-27.5) "moderate"
          triggeredBy := a.userId
          sessionId := 0 } ] ∧
    (applyAction a e).1.market.mortgageRate = e.market.mortgageRate + 2.75 * 1.2 ∧
    (applyAction a e).1.market.demandLevel = e.market.demandLevel - 2.75 * 10 ∧
    (processPlayerAction a e).engine.policy.fedRate = 5 := by
  obtain ⟨uid, role, atype, params⟩ := a
  obtain ⟨m, p⟩ := e
  simp only at hrole htype hrate hfed
  subst hrole htype
  refine ⟨?_, ?_, ?_, ?_⟩ <;>
    simp only [processPlayerAction, applyAction, processRegulatorAction, hrate, hfed] <;>
    norm_num

/-- C6 witness: the scenario at the freshly constructed engine. -/
theorem setFedRate_scenario_witness :
    ({ userId := "u1", role := "regulator", actionType := "set_fed_rate",
        parameters := { rate := 5 } } : PlayerAction).role = "regulator" ∧
    ({ userId := "u1", role := "regulator", actionType := "set_fed_rate",
        parameters := { rate := 5 } } : PlayerAction).actionType = "set_fed_rate" ∧
    ({ rate := 5 } : Params).rate = 5 ∧
    initialEngine.policy.fedRate = 2.25 ∧
    ((processPlayerAction
        { userId := "u1", role := "regulator", actionType := "set_fed_rate",
          parameters := { rate := 5 } } initialEngine).marketEvents =
      [ { eventType := "fed_rate_change"
          data := .fedRateChange 2.25 5 2.75 3.3 (-27.5) "moderate"
          triggeredBy := "u1"
          sessionId := 0 } ] ∧
      (applyAction
        { userId := "u1", role := "regulator", actionType := "set_fed_rate",
          parameters := { rate := 5 } } initialEngine).1.market.mortgageRate =
        initialEngine.market.mortgageRate + 2.75 * 1.2 ∧
      (applyAction
        { userId := "u1", role := "regulator", actionType := "set_fed_rate",
          parameters := { rate := 5 } } initialEngine).1.market.demandLevel =
        initialEngine.market.demandLevel - 2.75 * 10 ∧
      (processPlayerAction
        { userId := "u1", role := "regulator", actionType := "set_fed_rate",
          parameters := { rate := 5 } } initialEngine).engine.policy.fedRate = 5) :=
  ⟨rfl, rfl, rfl, rfl, setFedRate_scenario initialEngine _ rfl rfl rfl rfl⟩

/-- C7: an action whose role/actionType pair no switch case recognizes
emits no events and performs no action-specific mutation: the returned
MarketState is exactly the unconditional dynamics update of the unchanged
state, and the PolicyState is unchanged. -/
theorem unrecognizedAction_noop (a : PlayerAction) (e : Engine)
    (h : ¬ recognizedAction a.role a.actionType) :
    (processPlayerAction a e).marketEvents = [] ∧
    (processPlayerAction a e).newState = updateMarketDynamics e.market e.policy ∧
    (processPlayerAction a e).engine.policy = e.policy := by
  have ha : applyAction a e = (e, []) := by
    unfold applyAction
    split
    · next hr =>
        unfold processHomebuyerAction
        split
        · next ht => exact absurd (Or.inl ⟨hr, Or.inl ht⟩) h
        · next ht => exact absurd (Or.inl ⟨hr, Or.inr ht⟩) h
        · rfl
    · next hr =>
        unfold processInvestorAction
        split
        · next ht => exact absurd (Or.inr (Or.inl ⟨hr, Or.inl ht⟩)) h
        · next ht => exact absurd (Or.inr (Or.inl ⟨hr, Or.inr ht⟩)) h
        · rfl
    · next hr =>
        unfold processRegulatorAction
        split
        · next ht => exact absurd (Or.inr (Or.inr ⟨hr, Or.inl ht⟩)) h
        · next ht => exact absurd (Or.inr (Or.inr ⟨hr, Or.inr (Or.inl ht)⟩)) h
        · next ht => exact absurd (Or.inr (Or.inr ⟨hr, Or.inr (Or.inr ht)⟩)) h
        · rfl
    · rfl
  refine ⟨?_, ?_, ?_⟩ <;> simp [processPlayerAction, ha]

/-- C7 witness: an unknown role, and a known role with an unknown
actionType, both against the initial engine. -/
theorem unrecognizedAction_noop_witness :
    (¬ recognizedAction "banker" "bail_out") ∧
    ((processPlayerAction
        { userId := "u", role := "banker", actionType := "bail_out",
          parameters := {} } initialEngine).marketEvents = [] ∧
      (processPlayerAction
        { userId := "u", role := "banker", actionType := "bail_out",
          parameters := {} } initialEngine).newState =
        updateMarketDynamics initialEngine.market initialEngine.policy ∧
      (processPlayerAction
        { userId := "u", role := "banker", actionType := "bail_out",
          parameters := {} } initialEngine).engine.policy = initialEngine.policy) ∧
    (¬ recognizedAction "homebuyer" "refinance") ∧
    ((processPlayerAction
        { userId := "u", role := "homebuyer", actionType := "refinance",
          parameters := {} } initialEngine).marketEvents = [] ∧
      (processPlayerAction
        { userId := "u", role := "homebuyer", actionType := "refinance",
          parameters := {} } initialEngine).newState =
        updateMarketDynamics initialEngine.market initialEngine.policy ∧
      (processPlayerAction
        { userId := "u", role := "homebuyer", actionType := "refinance",
          parameters := {} } initialEngine).engine.policy = initialEngine.policy) :=
  ⟨by decide, unrecognizedAction_noop _ initialEngine (by decide),
    by decide, unrecognizedAction_noop _ initialEngine (by decide)⟩

/-- C9 (amended): for regulator/require_stress_testing the engine tests
only the `enabled` parameter, not the prior PolicyState: whenever enabled
is true the flat bubbleRisk reduction of 10 is applied and the event is
emitted, even if stress testing was already enabled; when enabled is
false there is no event and no action-specific mutation; in every case
stressTesting is set to the given value. -/
theorem stressTesting_behavior (e : Engine) (a : PlayerAction)
    (hrole : a.role = "regulator")
    (htype : a.actionType = "require_stress_testing") :
    (processPlayerAction a e).engine.policy.stressTesting = a.parameters.enabled ∧
    (a.parameters.enabled = true →
      (applyAction a e).1.market.bubbleRisk = e.market.bubbleRisk - 10 ∧
      (processPlayerAction a e).marketEvents =
        [ { eventType := "stress_testing_mandate"
            data := .stressTestingMandate true 10
            triggeredBy := a.userId
            sessionId := 0 } ]) ∧
    (a.parameters.enabled = false →
      (applyAction a e).1.market = e.market ∧
      (processPlayerAction a e).marketEvents = []) := by
  obtain ⟨uid, role, atype, params⟩ := a
  obtain ⟨m, p⟩ := e
  simp only at hrole htype
  subst hrole htype
  rcases hen : params.enabled with _ | _ <;>
    simp [processPlayerAction, applyAction, processRegulatorAction, hen]

/-- C9 witness: enabling against a policy where stress testing is off,
and disabling, both behave as the amended claim states. -/
theorem stressTesting_behavior_witness :
    ({ userId := "u", role := "regulator", actionType := "require_stress_testing",
        parameters := { enabled := true } } : PlayerAction).role = "regulator" ∧
    ((processPlayerAction
        { userId := "u", role := "regulator", actionType := "require_stress_testing",
          parameters := { enabled := true } } initialEngine).engine.policy.stressTesting =
      true ∧
      (applyAction
        { userId := "u", role := "regulator", actionType := "require_stress_testing",
          parameters := { enabled := true } } initialEngine).1.market.bubbleRisk =
        initialEngine.market.bubbleRisk - 10 ∧
      (processPlayerAction
        { userId := "u", role := "regulator", actionType := "require_stress_testing",
          parameters := { enabled := true } } initialEngine).marketEvents =
        [ { eventType := "stress_testing_mandate"
            data := .stressTestingMandate true 10
            triggeredBy := "u"
            sessionId := 0 } ]) := by
  refine ⟨rfl, ?_, ?_, ?_⟩
  · exact (stressTesting_behavior initialEngine _ rfl rfl).1
  · exact ((stressTesting_behavior initialEngine _ rfl rfl).2.1 rfl).1
  · exact ((stressTesting_behavior initialEngine _ rfl rfl).2.1 rfl).2

/-- C9 counterexample: against a PolicyState where stressTesting is
already true, a require_stress_testing action with enabled = true still
emits the event (one event, where the claim requires none). -/
theorem stressTesting_cx :
    (processPlayerAction
      { userId := "u", role := "regulator", actionType := "require_stress_testing",
        parameters := { enabled := true } }
      { initialEngine with
        policy := { initialEngine.policy with stressTesting := true } }
    ).marketEvents.length = 1 := rfl

/-- C3 (amended): the websocket server holds one EconomicEngine for all
sessions, so a player action submitted by a client bound to session A
mutates the MarketState every other session B observes (timeStep alone
always moves), and at any moment all sessions observe the same single
authoritative MarketState. -/
theorem sharedEngine_crossSession (s : ServerState) (cid : String)
    (payload : PlayerAction) (c : WSClient) (sidA sidB : ℤ)
    (hc : lookupClient s cid = some c)
    (hu : truthyUserId c.userId = true)
    (_hsid : c.sessionId = some sidA)
    (hs : truthySessionId c.sessionId = true)
    (_hne : sidA ≠ sidB) :
    observedMarketState (handlePlayerAction s cid payload) sidB ≠
      observedMarketState s sidB ∧
    (∀ sid : ℤ, observedMarketState (handlePlayerAction s cid payload) sid =
      observedMarketState (handlePlayerAction s cid payload) sidB) := by
  have hstate : handlePlayerAction s cid payload =
      { s with engine := (processPlayerAction
          { payload with userId := c.userId.getD "", role := c.role.getD "" }
          s.engine).engine } := by
    unfold handlePlayerAction
    rw [hc]
    simp [hu, hs]
  refine ⟨?_, fun sid => rfl⟩
  rw [hstate]
  intro h
  have ht := congrArg MarketState.timeStep h
  rw [show (observedMarketState { s with engine := (processPlayerAction
      { payload with userId := c.userId.getD "", role := c.role.getD "" }
      s.engine).engine } sidB) = (processPlayerAction
      { payload with userId := c.userId.getD "", role := c.role.getD "" }
      s.engine).engine.market from rfl,
    processPlayerAction_engine_market, processPlayerAction_timeStep,
    show observedMarketState s sidB = s.engine.market from rfl] at ht
  have : (0.25 : ℚ) = 0 := by linarith
  norm_num at this

/-- A two-session server over the freshly constructed shared engine:
client A joined session 1 as investor, client B joined session 2. -/
def cxServer : ServerState where
  engine := initialEngine
  clients :=
    [ ("A", { userId := some "alice", sessionId := some 1, role := some "investor" }),
      ("B", { userId := some "bob", sessionId := some 2, role := some "homebuyer" }) ]

/-- Client A's registry entry in `cxServer`. -/
def cxClientA : WSClient where
  userId := some "alice"
  sessionId := some 1
  role := some "investor"

/-- A player_action payload (the server overwrites userId and role from
the connection before calling the engine). -/
def cxPayload : PlayerAction where
  userId := ""
  role := ""
  actionType := "securitize"
  parameters := {}

/-- C3 witness: on the concrete two-session server, client A's action
changes what session 2 observes, and every session observes the same
state. -/
theorem sharedEngine_crossSession_witness :
    lookupClient cxServer "A" = some cxClientA ∧
    truthyUserId cxClientA.userId = true ∧
    cxClientA.sessionId = some 1 ∧
    truthySessionId cxClientA.sessionId = true ∧
    (1 : ℤ) ≠ 2 ∧
    (observedMarketState (handlePlayerAction cxServer "A" cxPayload) 2 ≠
        observedMarketState cxServer 2 ∧
      (∀ sid : ℤ, observedMarketState (handlePlayerAction cxServer "A" cxPayload) sid =
        observedMarketState (handlePlayerAction cxServer "A" cxPayload) 2)) :=
  ⟨rfl, rfl, rfl, rfl, by decide,
    sharedEngine_crossSession cxServer "A" cxPayload cxClientA 1 2 rfl rfl rfl rfl
      (by decide)⟩

/-- C3 counterexample: the claim as stated is false — an action bound to
session 1 (client A) changes the MarketState session 2 observes, because
both sessions read the one shared engine. -/
theorem sessionIsolation_cx :
    observedMarketState (handlePlayerAction cxServer "A" cxPayload) 2 ≠
      observedMarketState cxServer 2 := by
  intro h
  have ht := congrArg MarketState.timeStep h
  have h1 : (observedMarketState (handlePlayerAction cxServer "A" cxPayload) 2).timeStep
      = 0.25 := by with_unfolding_all rfl
  have h2 : (observedMarketState cxServer 2).timeStep = 0 := rfl
  rw [h1, h2] at ht
  norm_num at ht

/-- Array.prototype.find returns the first match: if index i satisfies
the predicate and every earlier index does not, find? returns the element
at i. -/
lemma find?_eq_of_first {α : Type} (p : α → Bool) :
    ∀ (l : List α) (i : ℕ) (hi : i < l.length),
      p (l.get ⟨i, hi⟩) = true →
      (∀ j (hj : j < l.length), j < i → p (l.get ⟨j, hj⟩) = false) →
      l.find? p = some (l.get ⟨i, hi⟩)
  | [], i, hi, _, _ => absurd hi (Nat.not_lt_zero i)
  | a :: t, 0, _, hp, _ => by
      simp only [List.get] at hp
      simp [List.find?, hp]
  | a :: t, i + 1, hi, hp, hj => by
      have ha : p a = false := by
        have := hj 0 (Nat.succ_pos _) (Nat.succ_pos i)
        simpa using this
      have ih := find?_eq_of_first p t i (Nat.lt_of_succ_lt_succ hi)
        (by simpa using hp)
        (fun j hjl hji => by
          have := hj (j + 1) (Nat.succ_lt_succ hjl) (Nat.succ_lt_succ hji)
          simpa using this)
      simp [List.find?, ha, ih]

/-- C8 (amended): getHistoricalComparison returns the current bubbleRisk,
and the narrative of the FIRST entry in the seeded list whose time is
strictly within 2 quarters of the current timeStep (list order, not
nearest), or the default normal-conditions string when no entry is within
tolerance. -/
theorem historicalComparison_firstMatch (e : Engine) :
    (getHistoricalComparison e).currentRisk = e.market.bubbleRisk ∧
    ((∀ h ∈ historicalData, ¬ (|h.time - e.market.timeStep| < 2)) →
      (getHistoricalComparison e).historicalEvent = "Normal market conditions") ∧
    (∀ i (hi : i < historicalData.length),
      |(historicalData.get ⟨i, hi⟩).time - e.market.timeStep| < 2 →
      (∀ j (hj : j < historicalData.length), j < i →
        ¬ (|(historicalData.get ⟨j, hj⟩).time - e.market.timeStep| < 2)) →
      (getHistoricalComparison e).historicalEvent =
        String.intercalate ", " (historicalData.get ⟨i, hi⟩).events) := by
  refine ⟨rfl, ?_, ?_⟩
  · intro hnone
    have hfind : historicalData.find?
        (fun h => decide (|h.time - e.market.timeStep| < 2)) = none := by
      rw [List.find?_eq_none]
      intro x hx
      simpa using hnone x hx
    simp [getHistoricalComparison, hfind]
  · intro i hi hp hj
    have hfind := find?_eq_of_first
      (fun h => decide (|h.time - e.market.timeStep| < 2)) historicalData i hi
      (by simpa using hp)
      (fun j hjl hji => by simpa using hj j hjl hji)
    simp [getHistoricalComparison, hfind]

/-- The engine three quarters in. -/
def hcQ3 : Engine :=
  { initialEngine with market := { initialEngine.market with timeStep := 3 } }

/-- C8 witness: at timeStep 3, the entry at time 4 (index 1) is the first
within tolerance and its narrative is returned. -/
theorem historicalComparison_firstMatch_witness :
    |(4 : ℚ) - 3| < 2 ∧
    ¬ (|(0 : ℚ) - 3| < 2) ∧
    (getHistoricalComparison hcQ3).historicalEvent =
      "Fed starts raising rates, Subprime lending peaks" := by
  have h4 : |(4 : ℚ) - 3| < 2 := by with_unfolding_all decide
  have h0 : ¬ (|(0 : ℚ) - 3| < 2) := by with_unfolding_all decide
  refine ⟨h4, h0, ?_⟩
  have happ := (historicalComparison_firstMatch hcQ3).2.2 1 (by norm_num [historicalData])
    (show |(4 : ℚ) - 3| < 2 from h4)
    (fun j hjl hji => by
      have hj0 : j = 0 := by omega
      subst hj0
      exact (show ¬ (|(0 : ℚ) - 3| < 2) from h0))
  simpa using happ

/-- The engine 11.5 quarters in (reachable after 46 actions). -/
def hcQ115 : Engine :=
  { initialEngine with market := { initialEngine.market with timeStep := 11.5 } }

/-- C8 counterexample: at timeStep 11.5 the code returns the narrative of
the time-10 entry (the first within tolerance), although the time-12
entry is strictly nearer, also within tolerance, and carries a different
narrative — so the returned narrative is not that of the nearest entry. -/
theorem historicalComparison_nearest_cx :
    (getHistoricalComparison hcQ115).historicalEvent =
      "Subprime crisis begins, Bear Stearns hedge funds collapse" ∧
    ({ time := 12, events := ["Lehman Brothers fails", "Global financial crisis"] } :
      HistEntry) ∈ historicalData ∧
    |(12 : ℚ) - 11.5| < 2 ∧
    (∀ h ∈ historicalData, h.time ≠ 12 → |h.time - 11.5| < 2 →
      |(12 : ℚ) - 11.5| < |h.time - 11.5|) ∧
    "Subprime crisis begins, Bear Stearns hedge funds collapse" ≠
      "Lehman Brothers fails, Global financial crisis" := by
  refine ⟨by with_unfolding_all rfl, by decide,
    by with_unfolding_all decide, by with_unfolding_all decide, by decide⟩

end BubbleSim
